import Mathlib

/-!
Verification of the `fake_graceful_nginx` test fixtures of sky-uk/feed.

The repository holds two near-duplicate Python scripts that simulate an
nginx-like process for tests:

* `src/nginx/fake_graceful_nginx.py` — handles `-v` and `-t` flags, unblocks
  and handles SIGQUIT and SIGHUP, writes a `nginx-started` marker file derived
  from its second argument, then sleeps 5 seconds and exits with `-1` unless a
  SIGQUIT arrives first.
* `src/ingress/fake_graceful_nginx.py` — no flag handling and no marker file;
  unblocks and handles SIGQUIT only, then sleeps 5 seconds and exits with `-1`
  unless a SIGQUIT arrives first.

Each script is embedded as a function from its inputs (the argument vector and
whether a SIGQUIT is delivered during the 5-second wait) to the ordered trace
of observable events it performs together with its outcome.  Sleep durations
are recorded in tenths of a second, so `time.sleep(0.5)` is `sleepTenths 5`
and `time.sleep(5)` is `sleepTenths 50`.  Out-of-range `sys.argv` accesses
surface as an `indexError` outcome, cutting the trace at the failing access,
mirroring an uncaught Python `IndexError`.
-/

namespace FakeNginx

/-- Signals used by the fixtures: SIGQUIT and SIGHUP. -/
inductive Sig
  | sigquit
  | sighup
deriving DecidableEq, Repr

/-- Identifiers of the handler functions defined in the scripts:
`sigquit_handler` and `sighup_handler` in the nginx variant, `signal_handler`
in the ingress variant. -/
inductive HandlerId
  | sigquitH
  | sighupH
  | ingressH
deriving DecidableEq, Repr

/-- Observable events of a run, in program order.  `printArgs` is the banner
`print('Running ...'.format(str(sys.argv)))`; `unblock` is
`signal.pthread_sigmask(signal.SIG_UNBLOCK, ...)`; `install` is
`signal.signal(sig, handler)`; `pauseBlock` would be an actual blocking
`signal.pause()` call; `writeFile` is the marker-file write. -/
inductive Ev
  | printArgs (argv : List String)
  | print (msg : String)
  | sleepTenths (t : Nat)
  | unblock (sigs : List Sig)
  | install (s : Sig) (h : HandlerId)
  | pauseBlock
  | writeFile (path content : String)
deriving DecidableEq, Repr

/-- How a whole run ends: a `sys.exit(code)`, or an uncaught `IndexError`
raised by reading `sys.argv` at the given index. -/
inductive Outcome
  | exited (code : Int)
  | indexError (idx : Nat)
deriving DecidableEq, Repr

/-- How a signal handler ends: it calls `sys.exit(code)`, or it returns to the
interrupted code. -/
inductive HOutcome
  | exits (code : Int)
  | returns
deriving DecidableEq, Repr

/-- A Python expression as it can appear in a bare expression statement here:
an attribute reference such as `signal.pause` (no parentheses), or a call such
as `signal.pause()`. -/
inductive SigExpr
  | attrRef (modName attrName : String)
  | call (modName attrName : String)
deriving DecidableEq, Repr

/-- A bare expression statement. -/
inductive SigStmt
  | exprStmt (e : SigExpr)
deriving DecidableEq, Repr

/-- Semantics of a bare expression statement: evaluating an attribute
reference merely produces the function object and has no effect; actually
calling `signal.pause` blocks until a signal arrives (event `pauseBlock`). -/
def evalStmt : SigStmt → List Ev
  | .exprStmt (.attrRef _ _) => []
  | .exprStmt (.call m a) =>
      if m = "signal" ∧ a = "pause" then [Ev.pauseBlock] else []

/-- The statement written on line 31 of `src/nginx/fake_graceful_nginx.py` and
line 17 of `src/ingress/fake_graceful_nginx.py`: `signal.pause` — an attribute
reference, not a call. -/
def pauseLine : SigStmt :=
  SigStmt.exprStmt (SigExpr.attrRef "signal" "pause")

/-- Python `s.split(c)` for a one-character separator: splits on every
occurrence, keeping empty fields; the empty string splits to one empty
field. -/
def pySplitChar (c : Char) : List Char → List (List Char)
  | [] => [[]]
  | x :: xs =>
    if x = c then [] :: pySplitChar c xs
    else
      match pySplitChar c xs with
      | [] => [[x]]
      | y :: ys => (x :: y) :: ys

/-- Line 33 of `src/nginx/fake_graceful_nginx.py`:
`str.join('/', sys.argv[2].split('/')[:-1]) + '/nginx-started'`.
`[:-1]` is `List.dropLast` and `str.join` is intercalation. -/
def startup_marker_file_name (arg2 : String) : String :=
  String.mk (List.intercalate ['/'] ((pySplitChar '/' arg2.toList).dropLast))
    ++ "/nginx-started"

/-- `sigquit_handler` of the nginx variant: `time.sleep(0.5)`, then the print,
then `sys.exit(0)`. -/
def sigquit_handler : List Ev × HOutcome :=
  ([Ev.sleepTenths 5, Ev.print "Received sigquit, doing graceful shutdown"],
   HOutcome.exits 0)

/-- `sighup_handler` of the nginx variant: its body is `pass`. -/
def sighup_handler : List Ev × HOutcome :=
  ([], HOutcome.returns)

/-- `signal_handler` of the ingress variant: the print first, then
`time.sleep(0.5)`, then `sys.exit(0)`. -/
def ingress_signal_handler : List Ev × HOutcome :=
  ([Ev.print "Received sigquit, doing graceful shutdown", Ev.sleepTenths 5],
   HOutcome.exits 0)

/-- Signal setup of the nginx variant: unblock SIGQUIT and SIGHUP, install
both handlers, then the bare `signal.pause` statement. -/
def nginxSetup : List Ev :=
  [Ev.unblock [Sig.sigquit, Sig.sighup],
   Ev.install Sig.sigquit HandlerId.sigquitH,
   Ev.install Sig.sighup HandlerId.sighupH] ++ evalStmt pauseLine

/-- Signal setup of the ingress variant: unblock SIGQUIT, install its handler,
then the bare `signal.pause` statement. -/
def ingressSetup : List Ev :=
  [Ev.unblock [Sig.sigquit],
   Ev.install Sig.sigquit HandlerId.ingressH] ++ evalStmt pauseLine

/-- The final wait of both scripts: `time.sleep(5)` then the timeout print and
`sys.exit(-1)`.  If a SIGQUIT is delivered during the sleep the handler runs;
a handler that returns resumes the sleep (Python ≥ 3.5 retries `time.sleep`),
so the timeout path follows anyway. -/
def waitPhase (handler : List Ev × HOutcome) (timeoutMsg : String)
    (quitDelivered : Bool) : List Ev × Outcome :=
  if quitDelivered then
    match handler.2 with
    | .exits c => (handler.1, Outcome.exited c)
    | .returns =>
        (handler.1 ++ [Ev.sleepTenths 50, Ev.print timeoutMsg],
         Outcome.exited (-1))
  else ([Ev.sleepTenths 50, Ev.print timeoutMsg], Outcome.exited (-1))

/-- `src/nginx/fake_graceful_nginx.py` as a whole run: banner print; `-v` and
`-t` short-circuits on `sys.argv[1]`; signal setup; marker-file write from
`sys.argv[2]`; final wait.  A missing `sys.argv[1]` or `sys.argv[2]` raises
`IndexError` at the corresponding point. -/
def nginxRun (argv : List String) (quitDelivered : Bool) : List Ev × Outcome :=
  match argv with
  | _ :: a1 :: rest =>
    if a1 = "-v" then
      ([Ev.printArgs argv, Ev.print "Asked for version"], Outcome.exited 0)
    else if a1 = "-t" then
      ([Ev.printArgs argv, Ev.print "Asked for config validation"],
       Outcome.exited 0)
    else
      match rest with
      | a2 :: _ =>
        let tail :=
          waitPhase sigquit_handler "Quit after 5 seconds of nada" quitDelivered
        (Ev.printArgs argv :: nginxSetup
           ++ [Ev.writeFile (startup_marker_file_name a2) "started!"]
           ++ tail.1,
         tail.2)
      | [] => (Ev.printArgs argv :: nginxSetup, Outcome.indexError 2)
  | _ => ([Ev.printArgs argv], Outcome.indexError 1)

/-- `src/ingress/fake_graceful_nginx.py` as a whole run: banner print; signal
setup; final wait.  It reads no `sys.argv` index beyond the vector itself. -/
def ingressRun (argv : List String) (quitDelivered : Bool) :
    List Ev × Outcome :=
  let tail := waitPhase ingress_signal_handler "Should have handled SIGQUIT"
    quitDelivered
  (Ev.printArgs argv :: ingressSetup ++ tail.1, tail.2)

/-- Events that change signal dispositions or touch the filesystem. -/
def Ev.touchesSignalsOrFs : Ev → Bool
  | .unblock _ => true
  | .install _ _ => true
  | .writeFile _ _ => true
  | _ => false

/-- Events that wait: a sleep or a blocking pause. -/
def Ev.isWait : Ev → Bool
  | .sleepTenths _ => true
  | .pauseBlock => true
  | _ => false

/-- The process exit byte the operating system reports for a `sys.exit(code)`:
POSIX keeps the low 8 bits of the exit status, so the observed byte is the
code modulo 256. -/
def exitByte (code : Int) : Int :=
  code % 256

/-- If the separator does not occur, Python split returns the whole string as
the single field. -/
theorem pySplitChar_of_not_mem (c : Char) :
    ∀ (l : List Char), c ∉ l → pySplitChar c l = [l] := by
  intro l
  induction l with
  | nil => intro _; rfl
  | cons x xs ih =>
    intro h
    have hx : ¬ x = c := by
      intro e
      exact h (by simp [e])
    have hxs : c ∉ xs := fun hm => h (List.mem_cons_of_mem x hm)
    simp [pySplitChar, hx, ih hxs]

/-- Claim C2: in the flag-handling (nginx) variant, a run whose first argument
is `-v` prints the banner and the version acknowledgment and exits with status
0, and a run whose first argument is `-t` prints the banner and the validation
acknowledgment and exits with status 0; in both cases the trace holds no wait
event (no sleep, no blocking pause), whether or not a quit signal would have
been delivered later. -/
theorem C2_version_validate_flags (a0 : String) (rest : List String) (b : Bool) :
    nginxRun (a0 :: "-v" :: rest) b
      = ([Ev.printArgs (a0 :: "-v" :: rest), Ev.print "Asked for version"],
         Outcome.exited 0)
    ∧ nginxRun (a0 :: "-t" :: rest) b
      = ([Ev.printArgs (a0 :: "-t" :: rest),
          Ev.print "Asked for config validation"], Outcome.exited 0)
    ∧ (nginxRun (a0 :: "-v" :: rest) b).1.all (fun e => ! Ev.isWait e) = true
    ∧ (nginxRun (a0 :: "-t" :: rest) b).1.all (fun e => ! Ev.isWait e) = true := by
  refine ⟨by simp [nginxRun], by simp [nginxRun], ?_, ?_⟩ <;>
    simp [nginxRun, Ev.isWait]

/-- Claim C3 counterexample: the claim states the quit-signal handler first
sleeps, then prints, in both variants; but the ingress variant's
`signal_handler` prints before it sleeps, so its event list is not
sleep-then-print. -/
theorem C3_counterexample :
    ¬ ingress_signal_handler.1
        = [Ev.sleepTenths 5,
           Ev.print "Received sigquit, doing graceful shutdown"] := by
  decide

/-- Claim C3 (amended): in both variants the quit-signal handler sleeps 0.5
seconds, prints the shutdown acknowledgment, and exits with status 0, but the
order differs: the nginx variant sleeps then prints, the ingress variant
prints then sleeps. -/
theorem C3_handler_order :
    sigquit_handler
      = ([Ev.sleepTenths 5,
          Ev.print "Received sigquit, doing graceful shutdown"],
         HOutcome.exits 0)
    ∧ ingress_signal_handler
      = ([Ev.print "Received sigquit, doing graceful shutdown",
          Ev.sleepTenths 5],
         HOutcome.exits 0) :=
  ⟨rfl, rfl⟩

/-- Claim C7: the nginx variant's `sighup_handler` has an empty body: it
performs no event, never exits the process, and delivering SIGHUP any number
of times produces no event at all. -/
theorem C7_sighup_noop :
    sighup_handler.1 = []
    ∧ sighup_handler.2 = HOutcome.returns
    ∧ ∀ n : Nat, (List.replicate n sighup_handler.1).flatten = [] := by
  refine ⟨rfl, rfl, ?_⟩
  intro n
  simp [sighup_handler]

/-- Claim C8: in the flag-handling (nginx) variant, a run whose argument
vector holds only the program name prints the banner and then raises an
out-of-range indexing error at `sys.argv[1]`; no signal setup and no
filesystem event occurs. -/
theorem C8_missing_argv_index_error (a0 : String) (b : Bool) :
    nginxRun [a0] b = ([Ev.printArgs [a0]], Outcome.indexError 1)
    ∧ (nginxRun [a0] b).1.all (fun e => ! Ev.touchesSignalsOrFs e) = true := by
  refine ⟨rfl, ?_⟩
  simp [nginxRun, Ev.touchesSignalsOrFs]

/-- Claim C1: with a first argument that is neither `-v` nor `-t` (and, for
the nginx variant, a second argument present) and no quit signal delivered
during the wait, both variants print their timeout message and exit with a
non-zero status. -/
theorem C1_timeout_nonzero_exit (a0 a1 a2 : String) (rest argv : List String)
    (h1 : a1 ≠ "-v") (h2 : a1 ≠ "-t") :
    (Ev.print "Quit after 5 seconds of nada"
        ∈ (nginxRun (a0 :: a1 :: a2 :: rest) false).1
      ∧ ∃ c : Int, (nginxRun (a0 :: a1 :: a2 :: rest) false).2
            = Outcome.exited c ∧ c ≠ 0)
    ∧ (Ev.print "Should have handled SIGQUIT" ∈ (ingressRun argv false).1
      ∧ ∃ c : Int, (ingressRun argv false).2 = Outcome.exited c ∧ c ≠ 0) := by
  refine ⟨⟨?_, ⟨-1, ?_, by decide⟩⟩, ⟨?_, ⟨-1, ?_, by decide⟩⟩⟩ <;>
    simp [nginxRun, ingressRun, h1, h2, waitPhase, nginxSetup, ingressSetup,
      evalStmt, pauseLine]

/-- Claim C1 witness at a concrete invocation. -/
theorem C1_timeout_nonzero_exit_witness :
    (Ev.print "Quit after 5 seconds of nada"
        ∈ (nginxRun ["./fake", "conf", "/etc/nginx/nginx.conf"] false).1
      ∧ ∃ c : Int, (nginxRun ["./fake", "conf", "/etc/nginx/nginx.conf"]
            false).2 = Outcome.exited c ∧ c ≠ 0)
    ∧ (Ev.print "Should have handled SIGQUIT"
        ∈ (ingressRun ["./fake"] false).1
      ∧ ∃ c : Int, (ingressRun ["./fake"] false).2 = Outcome.exited c
          ∧ c ≠ 0) :=
  C1_timeout_nonzero_exit "./fake" "conf" "/etc/nginx/nginx.conf" [] ["./fake"]
    (by decide) (by decide)

/-- Claim C4: the pause line of both variants is a bare attribute reference
whose evaluation produces no event, while an actual `signal.pause()` call
would block; hence no run of either variant ever blocks on pause, and in the
no-quit run the event directly after handler installation is the marker-file
write (nginx variant) or the 5-second sleep (ingress variant). -/
theorem C4_pause_is_uncalled_reference :
    evalStmt pauseLine = []
    ∧ evalStmt (SigStmt.exprStmt (SigExpr.call "signal" "pause"))
        = [Ev.pauseBlock]
    ∧ (∀ (argv : List String) (b : Bool), Ev.pauseBlock ∉ (nginxRun argv b).1)
    ∧ (∀ (argv : List String) (b : Bool),
        Ev.pauseBlock ∉ (ingressRun argv b).1)
    ∧ (∀ (a0 a1 a2 : String) (rest : List String),
        a1 ≠ "-v" → a1 ≠ "-t" →
        (nginxRun (a0 :: a1 :: a2 :: rest) false).1
          = [Ev.printArgs (a0 :: a1 :: a2 :: rest),
             Ev.unblock [Sig.sigquit, Sig.sighup],
             Ev.install Sig.sigquit HandlerId.sigquitH,
             Ev.install Sig.sighup HandlerId.sighupH,
             Ev.writeFile (startup_marker_file_name a2) "started!",
             Ev.sleepTenths 50, Ev.print "Quit after 5 seconds of nada"])
    ∧ (∀ argv : List String,
        (ingressRun argv false).1
          = [Ev.printArgs argv, Ev.unblock [Sig.sigquit],
             Ev.install Sig.sigquit HandlerId.ingressH,
             Ev.sleepTenths 50,
             Ev.print "Should have handled SIGQUIT"]) := by
  refine ⟨rfl, by decide, ?_, ?_, ?_, ?_⟩
  · intro argv b
    match argv with
    | [] => simp [nginxRun]
    | [a0] => simp [nginxRun]
    | a0 :: a1 :: rest =>
      by_cases h1 : a1 = "-v"
      · simp [nginxRun, h1]
      · by_cases h2 : a1 = "-t"
        · simp [nginxRun, h1, h2]
        · match rest with
          | [] =>
            simp [nginxRun, h1, h2, nginxSetup, evalStmt, pauseLine]
          | a2 :: t =>
            cases b <;>
              simp [nginxRun, h1, h2, nginxSetup, evalStmt, pauseLine,
                waitPhase, sigquit_handler]
  · intro argv b
    cases b <;>
      simp [ingressRun, ingressSetup, evalStmt, pauseLine, waitPhase,
        ingress_signal_handler]
  · intro a0 a1 a2 rest h1 h2
    simp [nginxRun, h1, h2, nginxSetup, evalStmt, pauseLine, waitPhase,
      sigquit_handler]
  · intro argv
    simp [ingressRun, ingressSetup, evalStmt, pauseLine, waitPhase,
      ingress_signal_handler]

/-- Claim C4 witness at a concrete invocation. -/
theorem C4_pause_is_uncalled_reference_witness :
    evalStmt pauseLine = []
    ∧ Ev.pauseBlock ∉ (nginxRun ["./fake", "conf", "/etc/nginx/nginx.conf"]
        false).1
    ∧ Ev.pauseBlock ∉ (ingressRun ["./fake"] false).1
    ∧ (nginxRun ["./fake", "conf", "/etc/nginx/nginx.conf"] false).1
        = [Ev.printArgs ["./fake", "conf", "/etc/nginx/nginx.conf"],
           Ev.unblock [Sig.sigquit, Sig.sighup],
           Ev.install Sig.sigquit HandlerId.sigquitH,
           Ev.install Sig.sighup HandlerId.sighupH,
           Ev.writeFile (startup_marker_file_name "/etc/nginx/nginx.conf")
             "started!",
           Ev.sleepTenths 50, Ev.print "Quit after 5 seconds of nada"] :=
  ⟨C4_pause_is_uncalled_reference.1,
   C4_pause_is_uncalled_reference.2.2.1
     ["./fake", "conf", "/etc/nginx/nginx.conf"] false,
   C4_pause_is_uncalled_reference.2.2.2.1 ["./fake"] false,
   C4_pause_is_uncalled_reference.2.2.2.2.1 "./fake" "conf"
     "/etc/nginx/nginx.conf" [] (by decide) (by decide)⟩

/-- Claim C5: in the marker-file (nginx) variant, a run that passes the flag
checks and has a second argument performs, after the signal setup and before
the 5-second timeout sleep, a write of the file whose name is the second
argument's parent components joined with slashes plus `/nginx-started`, with
content exactly `started!`. -/
theorem C5_marker_file_written (a0 a1 a2 : String) (rest : List String)
    (h1 : a1 ≠ "-v") (h2 : a1 ≠ "-t") :
    (nginxRun (a0 :: a1 :: a2 :: rest) false).1
      = [Ev.printArgs (a0 :: a1 :: a2 :: rest),
         Ev.unblock [Sig.sigquit, Sig.sighup],
         Ev.install Sig.sigquit HandlerId.sigquitH,
         Ev.install Sig.sighup HandlerId.sighupH,
         Ev.writeFile (startup_marker_file_name a2) "started!",
         Ev.sleepTenths 50, Ev.print "Quit after 5 seconds of nada"]
    ∧ ∃ dir : String, startup_marker_file_name a2 = dir ++ "/nginx-started" := by
  constructor
  · simp [nginxRun, h1, h2, nginxSetup, evalStmt, pauseLine, waitPhase,
      sigquit_handler]
  · exact ⟨_, rfl⟩

/-- Claim C5 witness at a concrete invocation: the marker path evaluates to
`/etc/nginx/nginx-started`. -/
theorem C5_marker_file_written_witness :
    (nginxRun ["./fake", "conf", "/etc/nginx/nginx.conf"] false).1
      = [Ev.printArgs ["./fake", "conf", "/etc/nginx/nginx.conf"],
         Ev.unblock [Sig.sigquit, Sig.sighup],
         Ev.install Sig.sigquit HandlerId.sigquitH,
         Ev.install Sig.sighup HandlerId.sighupH,
         Ev.writeFile "/etc/nginx/nginx-started" "started!",
         Ev.sleepTenths 50, Ev.print "Quit after 5 seconds of nada"]
    ∧ ∃ dir : String,
        startup_marker_file_name "/etc/nginx/nginx.conf"
          = dir ++ "/nginx-started" := by
  have h := C5_marker_file_written "./fake" "conf" "/etc/nginx/nginx.conf" []
    (by decide) (by decide)
  refine ⟨?_, h.2⟩
  rw [h.1]
  decide

/-- Claim C6: on the timeout path both variants exit via `sys.exit(-1)`, and
the operating system truncates `-1` to the exit byte `255`, which is not
zero. -/
theorem C6_negative_exit_wraps (a0 a1 a2 : String) (rest argv : List String)
    (h1 : a1 ≠ "-v") (h2 : a1 ≠ "-t") :
    (nginxRun (a0 :: a1 :: a2 :: rest) false).2 = Outcome.exited (-1)
    ∧ (ingressRun argv false).2 = Outcome.exited (-1)
    ∧ exitByte (-1) = 255
    ∧ exitByte (-1) ≠ 0 := by
  refine ⟨?_, ?_, by decide, by decide⟩ <;>
    simp [nginxRun, ingressRun, h1, h2, waitPhase]

/-- Claim C6 witness at a concrete invocation. -/
theorem C6_negative_exit_wraps_witness :
    (nginxRun ["./fake", "conf", "/etc/nginx/nginx.conf"] false).2
        = Outcome.exited (-1)
    ∧ (ingressRun ["./fake"] false).2 = Outcome.exited (-1)
    ∧ exitByte (-1) = 255
    ∧ exitByte (-1) ≠ 0 :=
  C6_negative_exit_wraps "./fake" "conf" "/etc/nginx/nginx.conf" [] ["./fake"]
    (by decide) (by decide)

/-- Claim C9: when the second argument holds no slash, the split yields a
single component, `[:-1]` drops it, the join of the empty list is the empty
string, and the marker path is exactly `/nginx-started`, the filesystem
root. -/
theorem C9_slashless_arg_gives_root_marker (s : String)
    (h : ('/' : Char) ∉ s.toList) :
    startup_marker_file_name s = "/nginx-started" := by
  unfold startup_marker_file_name
  rw [pySplitChar_of_not_mem '/' s.toList h]
  show String.mk (List.intercalate ['/'] []) ++ "/nginx-started"
    = "/nginx-started"
  decide

/-- Claim C9 witness: a concrete slash-free second argument. -/
theorem C9_slashless_arg_gives_root_marker_witness :
    ('/' : Char) ∉ ("nginx.conf" : String).toList
    ∧ startup_marker_file_name "nginx.conf" = "/nginx-started" :=
  ⟨by decide, C9_slashless_arg_gives_root_marker "nginx.conf" (by decide)⟩

/-- Claim C10: in the flag-handling (nginx) variant, a `-v` or `-t` run exits
with status 0 while its whole trace holds no signal-mask change, no handler
installation and no filesystem write, so signal dispositions and filesystem
are left untouched. -/
theorem C10_flags_leave_state_untouched (a0 : String) (rest : List String)
    (b : Bool) :
    (nginxRun (a0 :: "-v" :: rest) b).2 = Outcome.exited 0
    ∧ (nginxRun (a0 :: "-v" :: rest) b).1.all
        (fun e => ! Ev.touchesSignalsOrFs e) = true
    ∧ (nginxRun (a0 :: "-t" :: rest) b).2 = Outcome.exited 0
    ∧ (nginxRun (a0 :: "-t" :: rest) b).1.all
        (fun e => ! Ev.touchesSignalsOrFs e) = true := by
  refine ⟨?_, ?_, ?_, ?_⟩ <;> simp [nginxRun, Ev.touchesSignalsOrFs]

end FakeNginx
